import Mathlib

/-!
Shallow embedding of `src/main.py`, a real-time log fan-out system:
the record filter inside `QueueLogHandler.emit`, the ingestion queue
(`log_queue = asyncio.Queue()`), the broadcaster loop (`log_broadcaster`),
the subscription registry (`active_connections : Set[WebSocket]`) and the
websocket connection lifecycle handler (`websocket_endpoint`).
Formatted log lines are `List Char`; subscribers are identified by `Nat`.
-/

/-- Python exception values relevant to the embedded code:
`asyncio.QueueFull`, `KeyError`, and arbitrary other `Exception`
instances distinguished by a numeric code. -/
inductive PyExn
  | queueFull
  | keyError
  | exn (code : Nat)
deriving DecidableEq, Repr

/-- Character-wise test that `m` occurs at the very start of `s`. -/
def strStarts : List Char → List Char → Bool
  | _, [] => true
  | [], _ :: _ => false
  | c :: s, d :: m => c == d && strStarts s m

/-- Python's substring operator `m in s`, over character lists:
`m` occurs contiguously somewhere inside `s`. -/
def hasSub : List Char → List Char → Bool
  | [], m => m.isEmpty
  | c :: t, m => strStarts (c :: t) m || hasSub t m

/-- Marker of rule 1 in `QueueLogHandler.emit`: `"favicon.ico"`. -/
def marker_favicon : List Char := "favicon.ico".data

/-- Marker of rule 2 in `QueueLogHandler.emit`: the internal
proxy-request trace marker. -/
def marker_gemini : List Char := "Gemini proxy request: path=".data

/-- Marker of rule 3 in `QueueLogHandler.emit`. -/
def marker_cred_expired : List Char := "credentials expired, attempting refresh".data

/-- Marker of rule 4 in `QueueLogHandler.emit`. -/
def marker_cred_refreshed : List Char := "credentials refreshed successfully".data

/-- Marker of rule 5 in `QueueLogHandler.emit`. -/
def marker_expiry : List Char := "Converted environment expiry format".data

/-- The fixed suppression rule set of `QueueLogHandler.emit`, in source
order.  Note: the source contains no health-check marker rule. -/
def suppressionMarkers : List (List Char) :=
  [marker_favicon, marker_gemini, marker_cred_expired, marker_cred_refreshed, marker_expiry]

/-- The record filter: the chain of early-`return` tests at the top of
`QueueLogHandler.emit` (`src/main.py` lines 13-29).  A line is forwarded
(`true`) iff none of the five `if "<marker>" in log_entry: return`
tests fires. -/
def shouldForward (log_entry : List Char) : Bool :=
  if hasSub log_entry marker_favicon then false
  else if hasSub log_entry marker_gemini then false
  else if hasSub log_entry marker_cred_expired then false
  else if hasSub log_entry marker_cred_refreshed then false
  else if hasSub log_entry marker_expiry then false
  else true

/-- The `maxsize` of `log_queue = asyncio.Queue()` (`src/main.py` line 8):
the `asyncio.Queue` constructor default, `0`, which `asyncio` documents as
"infinite" (a queue with `maxsize <= 0` is never full). -/
def log_queue_maxsize : Nat := 0

/-- `asyncio.Queue.full()` semantics: a queue with `maxsize = 0` is never
full; otherwise it is full when it holds at least `maxsize` items. -/
def queue_full (maxsize : Nat) (q : List (List Char)) : Bool :=
  if maxsize = 0 then false else decide (maxsize ≤ q.length)

/-- `asyncio.Queue.put_nowait` semantics: raise `QueueFull` when full,
otherwise append the item at the tail. -/
def put_nowait (maxsize : Nat) (q : List (List Char)) (item : List Char) :
    Except PyExn (List (List Char)) :=
  if queue_full maxsize q then Except.error PyExn.queueFull
  else Except.ok (q ++ [item])

/-- `QueueLogHandler.emit` acting on the queue contents: run the filter
chain, then `try: log_queue.put_nowait(log_entry) except asyncio.QueueFull:
pass` (`src/main.py` lines 13-34). -/
def emit (q : List (List Char)) (log_entry : List Char) : List (List Char) :=
  if shouldForward log_entry then
    match put_nowait log_queue_maxsize q log_entry with
    | Except.ok q2 => q2
    | Except.error _ => q
  else q

instance : DecidableEq (Except PyExn Unit)
  | Except.ok (), Except.ok () => isTrue rfl
  | Except.ok (), Except.error _ => isFalse (fun h => nomatch h)
  | Except.error _, Except.ok () => isFalse (fun h => nomatch h)
  | Except.error e, Except.error f =>
    match decEq e f with
    | isTrue h => isTrue (h ▸ rfl)
    | isFalse h => isFalse (fun hh => h (by injection hh))

/-- Iterating a Python `set`: an arbitrary but duplicate-free listing of
its elements (modelled as the sorted listing of the `Finset`). -/
def registry_snapshot (s : Finset Nat) : List Nat := s.sort (· ≤ ·)

/-- One send attempt of the fan-out `asyncio.gather(*[ws.send_text(log_entry)
for ws in active_connections], return_exceptions=True)`: the target
subscriber, the entry sent, and the outcome of that individual send
(kept as a value, not re-raised, because of `return_exceptions=True`). -/
structure SendAttempt where
  ws : Nat
  entry : List Char
  result : Except PyExn Unit
deriving DecidableEq, Repr

/-- The fan-out batch for one queue entry: one `send_text` attempt per
subscriber in the registry iteration order. -/
def fanout (conns : List Nat) (e : List Char)
    (send : Nat → List Char → Except PyExn Unit) : List SendAttempt :=
  conns.map (fun ws => SendAttempt.mk ws e (send ws e))

/-- State of the broadcaster task: the ingestion queue, the subscription
registry `active_connections`, the trace of fan-out batches already
performed, and the errors logged by the `except Exception` handler. -/
structure BCState where
  queue : List (List Char)
  conns : Finset Nat
  trace : List (List SendAttempt)
  errlog : List PyExn

/-- One normal iteration of the `while True` body of `log_broadcaster`
(`src/main.py` lines 73-78): `await log_queue.get()` (suspend — modelled
as no change — when the queue is empty), then `await asyncio.gather(...)`
over the current registry, recording the whole batch before the next
iteration may begin. -/
def broadcast_body (send : Nat → List Char → Except PyExn Unit) (st : BCState) : BCState :=
  match st.queue with
  | [] => st
  | e :: rest =>
    { st with queue := rest, trace := st.trace ++ [fanout (registry_snapshot st.conns) e send] }

/-- The loop body as fallible code: `fault = some ex` injects an unexpected
`Exception` raised inside the pass, `fault = none` is the normal body. -/
def broadcast_body_exc (fault : Option PyExn) (send : Nat → List Char → Except PyExn Unit)
    (st : BCState) : Except PyExn BCState :=
  match fault with
  | some ex => Except.error ex
  | none => Except.ok (broadcast_body send st)

/-- One guarded iteration of `log_broadcaster`: the `try`/`except Exception
as e: logging.error(...)` wrapper (`src/main.py` lines 74-80).  A raised
exception is caught and logged; the iteration still yields a state for the
loop to continue from. -/
def broadcast_iter (fault : Option PyExn) (send : Nat → List Char → Except PyExn Unit)
    (st : BCState) : Except PyExn BCState :=
  match broadcast_body_exc fault send st with
  | Except.ok s2 => Except.ok s2
  | Except.error e => Except.ok { st with errlog := st.errlog ++ [e] }

/-- `n` iterations of the `while True` loop of `log_broadcaster` starting
at iteration index `k`, with a fault schedule; an exception escaping one
iteration would abort the whole run (kill the task). -/
def broadcast_run (faults : Nat → Option PyExn) (send : Nat → List Char → Except PyExn Unit) :
    Nat → Nat → BCState → Except PyExn BCState
  | _, 0, st => Except.ok st
  | k, Nat.succ n, st =>
    match broadcast_iter (faults k) send st with
    | Except.ok s2 => broadcast_run faults send (k + 1) n s2
    | Except.error e => Except.error e

/-- The delivery trace of `log_broadcaster` over a queue prefix
`entries`: iteration `k` dequeues `entries[k]` and gathers one batch of
sends to the registry snapshot `connsAt k`; the `await` on
`asyncio.gather` completes the whole batch before iteration `k + 1`
starts, so the trace is the per-entry batch list in dequeue order. -/
def broadcastBatches (entries : List (List Char)) (connsAt : Nat → Finset Nat)
    (send : Nat → List Char → Except PyExn Unit) : List (List SendAttempt) :=
  (List.range entries.length).map
    (fun k => fanout (registry_snapshot (connsAt k)) (entries.getD k []) send)

/-- `active_connections.add(websocket)` (`src/main.py` line 96): Python
set insertion. -/
def registry_add (s : Finset Nat) (x : Nat) : Finset Nat := insert x s

/-- `active_connections.remove(websocket)` (`src/main.py` line 102):
Python `set.remove`, which raises `KeyError` when the element is absent
(unlike `set.discard`). -/
def set_remove (s : Finset Nat) (x : Nat) : Except PyExn (Finset Nat) :=
  if x ∈ s then Except.ok (s.erase x) else Except.error PyExn.keyError

/-- The termination cause of the `while True: await websocket.receive_text()`
loop in `websocket_endpoint`: either the transport-level
`WebSocketDisconnect`, or any other local `Exception`. -/
inductive WsExn
  | wsDisconnect
  | other (e : PyExn)
deriving DecidableEq, Repr

/-- The disconnect log line emitted by `websocket_endpoint`. -/
def clientDisconnectedMsg : List Char := "A client disconnected from the log stream.".data

/-- Outcome of `websocket_endpoint` leaving its receive loop: the registry
afterwards, the informational log lines emitted, and the exception (if
any) propagating out of the handler. -/
structure CloseOutcome where
  conns : Finset Nat
  logs : List (List Char)
  raised : Option PyExn
deriving DecidableEq

/-- The exception path of `websocket_endpoint` (`src/main.py` lines
98-103): only `WebSocketDisconnect` is caught, and its handler runs
`active_connections.remove(websocket)` then logs the disconnect; any
other exception propagates with the registry untouched and nothing
logged.  (A `KeyError` raised by `remove` inside the `except` block
would itself propagate.) -/
def websocket_on_exception (conns : Finset Nat) (logs : List (List Char)) (ws : Nat) :
    WsExn → CloseOutcome
  | WsExn.wsDisconnect =>
    match set_remove conns ws with
    | Except.ok s2 => CloseOutcome.mk s2 (logs ++ [clientDisconnectedMsg]) none
    | Except.error e => CloseOutcome.mk conns logs (some e)
  | WsExn.other e => CloseOutcome.mk conns logs (some e)

theorem strStarts_append (m b : List Char) : strStarts (m ++ b) m = true := by
  induction m with
  | nil => cases b <;> rfl
  | cons c t ih => simp [strStarts, ih]

theorem hasSub_of_suffix (a s m : List Char) (h : hasSub s m = true) :
    hasSub (a ++ s) m = true := by
  induction a with
  | nil => simpa using h
  | cons c t ih => simp [hasSub, ih]

theorem hasSub_self_append (m b : List Char) : hasSub (m ++ b) m = true := by
  cases m with
  | nil => cases b <;> simp [hasSub, strStarts]
  | cons c t =>
    have h := strStarts_append (c :: t) b
    rw [List.cons_append] at h
    simp [hasSub, h]

theorem hasSub_sandwich (a m b : List Char) : hasSub (a ++ m ++ b) m = true := by
  rw [List.append_assoc]
  exact hasSub_of_suffix a (m ++ b) m (hasSub_self_append m b)

theorem shouldForward_eq (line : List Char) :
    shouldForward line = !(suppressionMarkers.any (fun m => hasSub line m)) := by
  simp only [shouldForward, suppressionMarkers, List.any_cons, List.any_nil]
  cases h1 : hasSub line marker_favicon <;>
  cases h2 : hasSub line marker_gemini <;>
  cases h3 : hasSub line marker_cred_expired <;>
  cases h4 : hasSub line marker_cred_refreshed <;>
  cases h5 : hasSub line marker_expiry <;> simp

theorem fanout_filter_length (l : List Nat) (e : List Char)
    (send : Nat → List Char → Except PyExn Unit) (ws : Nat) (hl : l.Nodup) :
    ((fanout l e send).filter (fun a => a.ws == ws)).length = if ws ∈ l then 1 else 0 := by
  induction l with
  | nil => simp [fanout]
  | cons w t ih =>
    rw [List.nodup_cons] at hl
    have ht := ih hl.2
    have hfan : fanout (w :: t) e send = SendAttempt.mk w e (send w e) :: fanout t e send := rfl
    rw [hfan, List.filter_cons]
    by_cases hw : w = ws
    · subst hw
      simp [ht, hl.1]
    · have hws2 : ¬ ws = w := fun h => hw h.symm
      simp [ht, List.mem_cons, hw, hws2]

/-- C1 counterexample: the spec's rule set includes a health-check path
marker and its example says a line containing `GET /health` is filtered,
but `QueueLogHandler.emit` has no such rule: a formatted access-log line
containing `GET /health` passes the filter (`shouldForward = true`). -/
theorem C1_counterexample :
    hasSub ("2024-01-01 12:00:00 - INFO - 127.0.0.1 GET /health HTTP/1.1 200".data)
      ("GET /health".data) = true ∧
    shouldForward ("2024-01-01 12:00:00 - INFO - 127.0.0.1 GET /health HTTP/1.1 200".data)
      = true := by
  constructor <;> rfl

/-- C1 (amended): the Record Filter forwards a formatted line iff none of
the five suppression rules of `QueueLogHandler.emit` matches — the favicon
marker, the internal proxy-request trace marker, and the three routine
credential-refresh phrases; there is no health-check rule, so a line
containing `GET /health` is forwarded, and a `client connected` line is
forwarded. -/
theorem C1_forward_iff_no_rule_matches :
    (∀ line : List Char,
      shouldForward line = true ↔ ∀ m ∈ suppressionMarkers, hasSub line m = false) ∧
    shouldForward ("2024-01-01 12:00:00 - INFO - 127.0.0.1 GET /health HTTP/1.1 200".data)
      = true ∧
    shouldForward ("2024-01-01 12:00:00 - INFO - A new client connected to the log stream.".data)
      = true := by
  refine ⟨fun line => ?_, by rfl, by rfl⟩
  rw [shouldForward_eq]
  simp [List.any_eq_false]

/-- C10: suppression is a plain substring match over the whole formatted
line: whenever one of the five marker strings occurs anywhere in the
line — whatever surrounds it, including an `ERROR` level prefix — the
filter rejects the line and `emit` leaves the queue untouched. -/
theorem C10_substring_suppression (q : List (List Char)) (pre post m : List Char)
    (hm : m ∈ suppressionMarkers) :
    shouldForward (pre ++ m ++ post) = false ∧ emit q (pre ++ m ++ post) = q := by
  have hsub : hasSub (pre ++ m ++ post) m = true := hasSub_sandwich pre m post
  have hsf : shouldForward (pre ++ m ++ post) = false := by
    rw [shouldForward_eq]
    simp only [Bool.not_eq_false', List.any_eq_true]
    exact ⟨m, hm, hsub⟩
  refine ⟨hsf, ?_⟩
  unfold emit
  rw [hsf]
  simp

/-- C10 witness: an `ERROR`-level line that merely mentions `favicon.ico`
is suppressed and never enqueued. -/
theorem C10_witness :
    marker_favicon ∈ suppressionMarkers ∧
    (shouldForward ("2024-01-01 12:00:00 - ERROR - failed to load ".data ++ marker_favicon
        ++ " from disk".data) = false ∧
      emit [] ("2024-01-01 12:00:00 - ERROR - failed to load ".data ++ marker_favicon
        ++ " from disk".data) = []) :=
  ⟨by simp [suppressionMarkers],
    C10_substring_suppression [] ("2024-01-01 12:00:00 - ERROR - failed to load ".data)
      (" from disk".data) marker_favicon (by simp [suppressionMarkers])⟩

/-- C3 counterexample: `log_queue = asyncio.Queue()` has `maxsize = 0`,
which `asyncio` treats as infinite: the queue is not bounded — even a
million-entry queue is not full, and `put_nowait` accepts the next line. -/
theorem C3_counterexample :
    log_queue_maxsize = 0 ∧
    queue_full log_queue_maxsize (List.replicate 1000000 ['x']) = false ∧
    put_nowait log_queue_maxsize (List.replicate 1000000 ['x']) ['y'] =
      Except.ok (List.replicate 1000000 ['x'] ++ [['y']]) :=
  ⟨rfl, rfl, rfl⟩

/-- C3 (amended): the Ingestion Queue is unbounded (`asyncio.Queue()` with
default `maxsize = 0`); `put_nowait` always succeeds by appending the new
line at the tail (so enqueue never blocks, never raises past the call —
the dead `except QueueFull` handler would swallow it — and never evicts
older entries), and `emit` appends the line exactly when the filter
forwards it. -/
theorem C3_unbounded_enqueue (q : List (List Char)) (line : List Char) :
    put_nowait log_queue_maxsize q line = Except.ok (q ++ [line]) ∧
    emit q line = (if shouldForward line then q ++ [line] else q) := by
  have h : put_nowait log_queue_maxsize q line = Except.ok (q ++ [line]) := by
    simp [put_nowait, queue_full, log_queue_maxsize]
  refine ⟨h, ?_⟩
  simp only [emit, h]

/-- C5 counterexample: removing a subscriber from an empty registry is not
a no-op — `set.remove` raises `KeyError`. -/
theorem C5_counterexample :
    set_remove (∅ : Finset Nat) 0 = Except.error PyExn.keyError := by
  simp [set_remove]

/-- C5 (amended): the registry removal used by `websocket_endpoint` is
Python `set.remove`: on a subscriber that is absent it raises `KeyError`
(for every registry state), and it succeeds exactly when the subscriber
is present. -/
theorem C5_remove_absent_raises (s : Finset Nat) (x : Nat) :
    (set_remove s x = Except.error PyExn.keyError ↔ x ∉ s) ∧
    ((∃ s2, set_remove s x = Except.ok s2) ↔ x ∈ s) := by
  by_cases h : x ∈ s <;> simp [set_remove, h]

theorem registry_snapshot_nodup (s : Finset Nat) : (registry_snapshot s).Nodup :=
  Finset.sort_nodup _ s

theorem mem_registry_snapshot {s : Finset Nat} {ws : Nat} :
    ws ∈ registry_snapshot s ↔ ws ∈ s :=
  Finset.mem_sort _

/-- C6 counterexample: a connection closed by a local error (any exception
other than `WebSocketDisconnect`) leaves the subscriber registered and
emits no disconnect log — `websocket_endpoint` only catches
`WebSocketDisconnect`, so the claim that every path into `Closed` removes
the subscriber fails. -/
theorem C6_counterexample :
    websocket_on_exception {0} [] 0 (WsExn.other (PyExn.exn 1)) =
      CloseOutcome.mk {0} [] (some (PyExn.exn 1)) ∧
    0 ∈ (websocket_on_exception {0} [] 0 (WsExn.other (PyExn.exn 1))).conns := by
  refine ⟨rfl, ?_⟩
  simp [websocket_on_exception]

/-- C6 (amended): only the remote-disconnect path into `Closed`
(`WebSocketDisconnect`) removes the subscriber from the registry and logs
`client disconnected`; on a local error the exception propagates out of
the handler, the subscriber stays registered, and nothing is logged. -/
theorem C6_close_paths (conns : Finset Nat) (logs : List (List Char)) (ws : Nat)
    (h : ws ∈ conns) :
    websocket_on_exception conns logs ws WsExn.wsDisconnect =
      CloseOutcome.mk (conns.erase ws) (logs ++ [clientDisconnectedMsg]) none ∧
    ∀ e : PyExn,
      websocket_on_exception conns logs ws (WsExn.other e) =
        CloseOutcome.mk conns logs (some e) ∧
      ws ∈ (websocket_on_exception conns logs ws (WsExn.other e)).conns := by
  constructor
  · simp [websocket_on_exception, set_remove, h]
  · intro e
    exact ⟨rfl, by simpa [websocket_on_exception] using h⟩

/-- C6 witness: instantiation of the amended close-path theorem for the
registry `{5}` and subscriber `5`. -/
theorem C6_witness :
    websocket_on_exception {5} [] 5 WsExn.wsDisconnect =
      CloseOutcome.mk (Finset.erase {5} 5) ([] ++ [clientDisconnectedMsg]) none ∧
    ∀ e : PyExn,
      websocket_on_exception {5} [] 5 (WsExn.other e) =
        CloseOutcome.mk {5} [] (some e) ∧
      5 ∈ (websocket_on_exception {5} [] 5 (WsExn.other e)).conns :=
  C6_close_paths {5} [] 5 (by decide)

/-- C8: fixing the registry snapshot taken when entry `e` is dequeued,
the fan-out batch contains exactly one send attempt addressed to each
subscriber of the snapshot — none skipped, none doubled. -/
theorem C8_exactly_one_attempt (s : Finset Nat) (e : List Char)
    (send : Nat → List Char → Except PyExn Unit) (ws : Nat) (h : ws ∈ s) :
    ((fanout (registry_snapshot s) e send).filter (fun a => a.ws == ws)).length = 1 := by
  rw [fanout_filter_length _ _ _ _ (registry_snapshot_nodup s)]
  simp [mem_registry_snapshot, h]

/-- C8 witness: in the batch for registry `{3, 4}`, subscriber `3` gets
exactly one send attempt. -/
theorem C8_witness :
    3 ∈ ({3, 4} : Finset Nat) ∧
    ((fanout (registry_snapshot {3, 4}) ['A'] (fun _ _ => Except.ok ())).filter
      (fun a => a.ws == 3)).length = 1 :=
  ⟨by decide, C8_exactly_one_attempt {3, 4} ['A'] (fun _ _ => Except.ok ()) 3 (by decide)⟩

/-- C9: the Subscription Registry has set semantics —
`active_connections.add` of an already-registered subscriber leaves the
registry unchanged (and changes it otherwise), and a fan-out batch over
any registry issues at most one send attempt per distinct subscriber. -/
theorem C9_registry_set_semantics (s : Finset Nat) (x : Nat) :
    (registry_add s x = s ↔ x ∈ s) ∧
    ∀ (e : List Char) (send : Nat → List Char → Except PyExn Unit) (ws : Nat),
      ((fanout (registry_snapshot (registry_add s x)) e send).filter
        (fun a => a.ws == ws)).length ≤ 1 := by
  constructor
  · simp only [registry_add]
    exact Finset.insert_eq_self
  · intro e send ws
    rw [fanout_filter_length _ _ _ _ (registry_snapshot_nodup (registry_add s x))]
    split <;> omega

/-- C4: fault isolation inside one fan-out batch — when subscriber `s1`'s
send of entry `e` fails, the broadcaster iteration still leaves the
registry unchanged (no auto-deregistration), still records the full batch
for `e`, and that batch contains subscriber `s2`'s own send attempt with
its own result (`asyncio.gather(..., return_exceptions=True)` collects the
failure as a value instead of aborting the batch or crashing the task). -/
theorem C4_fault_isolation (send : Nat → List Char → Except PyExn Unit) (st : BCState)
    (e : List Char) (rest : List (List Char)) (s1 s2 : Nat) (ex : PyExn)
    (hq : st.queue = e :: rest) (h1 : s1 ∈ st.conns) (h2 : s2 ∈ st.conns)
    (hfail : send s1 e = Except.error ex) :
    (broadcast_body send st).conns = st.conns ∧
    (broadcast_body send st).trace = st.trace ++ [fanout (registry_snapshot st.conns) e send] ∧
    SendAttempt.mk s2 e (send s2 e) ∈ fanout (registry_snapshot st.conns) e send := by
  refine ⟨?_, ?_, ?_⟩
  · simp [broadcast_body, hq]
  · simp [broadcast_body, hq]
  · exact List.mem_map.mpr ⟨s2, mem_registry_snapshot.mpr h2, rfl⟩

/-- C4 witness: with registry `{1, 2}` and a send function that fails for
subscriber `1`, subscriber `2` still has its (successful) attempt in the
batch for entry `A`, and the registry is untouched. -/
theorem C4_witness :
    (broadcast_body
        (fun w _ => if w = 1 then Except.error (PyExn.exn 3) else Except.ok ())
        (BCState.mk [['A']] ({1, 2} : Finset Nat) [] [])).conns = ({1, 2} : Finset Nat) ∧
    (broadcast_body
        (fun w _ => if w = 1 then Except.error (PyExn.exn 3) else Except.ok ())
        (BCState.mk [['A']] ({1, 2} : Finset Nat) [] [])).trace =
      [] ++ [fanout (registry_snapshot ({1, 2} : Finset Nat)) ['A']
        (fun w _ => if w = 1 then Except.error (PyExn.exn 3) else Except.ok ())] ∧
    SendAttempt.mk 2 ['A']
        ((fun (w : Nat) (_ : List Char) =>
          if w = 1 then Except.error (PyExn.exn 3) else Except.ok ()) 2 ['A']) ∈
      fanout (registry_snapshot ({1, 2} : Finset Nat)) ['A']
        (fun w _ => if w = 1 then Except.error (PyExn.exn 3) else Except.ok ()) :=
  C4_fault_isolation
    (fun w _ => if w = 1 then Except.error (PyExn.exn 3) else Except.ok ())
    (BCState.mk [['A']] ({1, 2} : Finset Nat) [] []) ['A'] [] 1 2 (PyExn.exn 3)
    rfl (by decide) (by decide) rfl

/-- C7: the broadcaster task survives every fault — a guarded iteration
never lets an exception escape (`except Exception` catches it), and any
number `n` of loop iterations runs to completion, extending (never
rewriting) the error log; an exception injected at the first iteration
ends up logged in the final state. -/
theorem C7_loop_survives (faults : Nat → Option PyExn)
    (send : Nat → List Char → Except PyExn Unit) (k n : Nat) (st : BCState) :
    (∀ fault ex, broadcast_iter fault send st ≠ Except.error ex) ∧
    ∃ s2, broadcast_run faults send k n st = Except.ok s2 ∧
      (∃ t, s2.errlog = st.errlog ++ t) ∧
      ∀ ex, faults k = some ex → 0 < n → ex ∈ s2.errlog := by
  constructor
  · intro fault ex
    cases fault <;> simp [broadcast_iter, broadcast_body_exc]
  · induction n generalizing k st with
    | zero => exact ⟨st, rfl, ⟨[], by simp⟩, fun ex _ h => absurd h (by omega)⟩
    | succ n ih =>
      cases hf : faults k with
      | none =>
        have hrun : broadcast_run faults send k (n + 1) st =
            broadcast_run faults send (k + 1) n (broadcast_body send st) := by
          simp [broadcast_run, hf, broadcast_iter, broadcast_body_exc]
        obtain ⟨s2, hs2, ⟨t, ht⟩, _⟩ := ih (k + 1) (broadcast_body send st)
        have herr : (broadcast_body send st).errlog = st.errlog := by
          cases hq : st.queue <;> simp [broadcast_body, hq]
        refine ⟨s2, by rw [hrun]; exact hs2, ⟨t, by rw [ht, herr]⟩, ?_⟩
        intro ex hx
        simp at hx
      | some ex0 =>
        have hrun : broadcast_run faults send k (n + 1) st =
            broadcast_run faults send (k + 1) n { st with errlog := st.errlog ++ [ex0] } := by
          simp [broadcast_run, hf, broadcast_iter, broadcast_body_exc]
        obtain ⟨s2, hs2, ⟨t, ht⟩, _⟩ := ih (k + 1) { st with errlog := st.errlog ++ [ex0] }
        refine ⟨s2, by rw [hrun]; exact hs2, ⟨[ex0] ++ t, by rw [ht]; simp⟩, ?_⟩
        intro ex hx _
        injection hx with hx
        subst hx
        rw [ht]
        simp

/-- C7 witness: instantiation at a schedule that injects exception `7`
at the first of two iterations, starting from an empty state. -/
theorem C7_witness :
    (∀ fault ex, broadcast_iter fault (fun _ _ => Except.ok ())
        (BCState.mk [] ∅ [] []) ≠ Except.error ex) ∧
    ∃ s2, broadcast_run (fun _ => some (PyExn.exn 7)) (fun _ _ => Except.ok ()) 0 2
        (BCState.mk [] ∅ [] []) = Except.ok s2 ∧
      (∃ t, s2.errlog = [] ++ t) ∧
      ∀ ex, (fun _ => some (PyExn.exn 7)) 0 = some ex → 0 < 2 → ex ∈ s2.errlog :=
  C7_loop_survives (fun _ => some (PyExn.exn 7)) (fun _ _ => Except.ok ()) 0 2
    (BCState.mk [] ∅ [] [])

/-- C2: FIFO with per-entry batching — in the broadcaster's delivery
trace, the flattened sequence of send attempts splits as `P ++ S` such
that every attempt of the earlier entry `i` (in particular to any
subscriber present at both times) lies in `P` and every attempt of the
later entry `j` lies in `S`: entry `i` is delivered to every subscriber
of its snapshot strictly before any delivery of entry `j` begins, because
`await asyncio.gather` finishes the whole batch of one dequeued entry
before the next `log_queue.get()`. -/
theorem C2_fifo_per_entry_batches (entries : List (List Char)) (connsAt : Nat → Finset Nat)
    (send : Nat → List Char → Except PyExn Unit) (i j : Nat)
    (hij : i < j) (hj : j < entries.length) :
    ∃ P S, (broadcastBatches entries connsAt send).flatten = P ++ S ∧
      (∀ ws ∈ connsAt i,
        SendAttempt.mk ws (entries.getD i []) (send ws (entries.getD i [])) ∈ P) ∧
      ∀ ws ∈ connsAt j,
        SendAttempt.mk ws (entries.getD j []) (send ws (entries.getD j [])) ∈ S := by
  have hx := List.range'_append_1 0 (i + 1) (entries.length - (i + 1))
  rw [Nat.zero_add] at hx
  have hy : entries.length - (i + 1) + (i + 1) = entries.length := by omega
  rw [hy] at hx
  have hsplit : List.range entries.length =
      List.range' 0 (i + 1) ++ List.range' (i + 1) (entries.length - (i + 1)) := by
    rw [List.range_eq_range', ← hx]
  refine ⟨((List.range' 0 (i + 1)).map
      (fun k => fanout (registry_snapshot (connsAt k)) (entries.getD k []) send)).flatten,
    ((List.range' (i + 1) (entries.length - (i + 1))).map
      (fun k => fanout (registry_snapshot (connsAt k)) (entries.getD k []) send)).flatten,
    ?_, ?_, ?_⟩
  · rw [broadcastBatches, hsplit, List.map_append, List.flatten_append]
  · intro ws hws
    refine List.mem_flatten.mpr
      ⟨fanout (registry_snapshot (connsAt i)) (entries.getD i []) send, ?_, ?_⟩
    · exact List.mem_map.mpr ⟨i, by simp, rfl⟩
    · exact List.mem_map.mpr ⟨ws, mem_registry_snapshot.mpr hws, rfl⟩
  · intro ws hws
    refine List.mem_flatten.mpr
      ⟨fanout (registry_snapshot (connsAt j)) (entries.getD j []) send, ?_, ?_⟩
    · refine List.mem_map.mpr ⟨j, ?_, rfl⟩
      simp only [List.mem_range'_1]
      omega
    · exact List.mem_map.mpr ⟨ws, mem_registry_snapshot.mpr hws, rfl⟩

/-- C2 witness: for the two-entry queue `[A, B]` with the constant
registry `{0}`, the flattened trace splits with the attempt for `A`
before the attempt for `B`. -/
theorem C2_witness :
    ∃ P S, (broadcastBatches [['A'], ['B']] (fun _ => ({0} : Finset Nat))
        (fun _ _ => Except.ok ())).flatten = P ++ S ∧
      (∀ ws ∈ (fun _ => ({0} : Finset Nat)) 0,
        SendAttempt.mk ws (([['A'], ['B']] : List (List Char)).getD 0 [])
          ((fun _ _ => Except.ok ()) ws (([['A'], ['B']] : List (List Char)).getD 0 [])) ∈ P) ∧
      ∀ ws ∈ (fun _ => ({0} : Finset Nat)) 1,
        SendAttempt.mk ws (([['A'], ['B']] : List (List Char)).getD 1 [])
          ((fun _ _ => Except.ok ()) ws (([['A'], ['B']] : List (List Char)).getD 1 [])) ∈ S :=
  C2_fifo_per_entry_batches [['A'], ['B']] (fun _ => ({0} : Finset Nat))
    (fun _ _ => Except.ok ()) 0 1 (by decide) (by decide)
